import Mathlib

/-!
Verification of the query-execution and connection-lifecycle core of the
mcp-server-motherduck repository.

The definitions below are a shallow embedding of
`src/mcp_server_motherduck/database.py` (class `DatabaseClient` and the
helper `_is_read_scaling_connection`) and of
`src/mcp_server_motherduck/tools/switch_database_connection.py`.

The embedded SQL engine (the `duckdb` module) is external to the
repository; its behaviour is represented by an `Env` record (what the
duckling-id probe returns, what attaching an object-storage database
does, whether executing the init SQL succeeds, which files exist) and by
a `QueryOutcome` value (the column metadata and row stream a query
produces, or the exception it raises).  Side effects performed against
the engine (connecting, closing, applying security settings, running
init SQL, starting and cancelling the interrupt timer) are recorded as
an explicit event trace.

Machine strings are Lean `String`s; Python `len` on the JSON output is
modelled by `jsonDumpsLen`, which reproduces the length of
`json.dumps(result)` with its default separators for results whose cell
values are strings free of JSON escape characters.
-/

namespace MotherDuck

instance {ε α : Type} [DecidableEq ε] [DecidableEq α] : DecidableEq (Except ε α) := fun a b =>
  match a, b with
  | .error x, .error y =>
      if h : x = y then .isTrue (by rw [h]) else .isFalse (by intro hc; cases hc; exact h rfl)
  | .ok x, .ok y =>
      if h : x = y then .isTrue (by rw [h]) else .isFalse (by intro hc; cases hc; exact h rfl)
  | .error _, .ok _ => .isFalse (by intro hc; cases hc)
  | .ok _, .error _ => .isFalse (by intro hc; cases hc)

/-- Exceptions that can cross the embedded function boundaries:
`ValueError` (used by the source for timeout and configuration
failures), `duckdb.InterruptException`, and any other engine error
together with its Python type name. -/
inductive PyExc where
  | valueError (msg : String)
  | interrupt (msg : String)
  | other (msg : String) (tyName : String)
  deriving DecidableEq, Repr

/-- Engine-facing side effects, recorded in order of execution. -/
inductive Event where
  | connect (path : String) (readOnly : Bool)
  | probeSelectOne
  | close
  | installHttpfs
  | loadHttpfs
  | createSecretKeys
  | createSecretChain
  | attach (path : String) (readOnly : Bool)
  | useS3db
  | ducklingProbe
  | applySecurity
  | runInitSql (sql : String)
  | timerStart
  | runQuery
  | timerCancel
  deriving DecidableEq, Repr

/-- State of a `DatabaseClient` instance: the constructor arguments it
stores plus the resolved path/type and the current connection handle
(`none` models Python `self.conn is None`, the ephemeral sentinel). -/
structure DatabaseClient where
  dbPath : String
  dbType : String
  readOnly : Bool
  ephemeralConnections : Bool
  maxRows : Nat
  maxChars : Nat
  queryTimeout : Int
  initSql : Option String
  secureMode : Bool
  conn : Option Unit
  deriving DecidableEq, Repr

/-- Behaviour of the external engine and operating system during one
embedded call. -/
structure Env where
  ducklingProbe : Except String (Option String)
  isFile : String → Bool
  fileContent : String → String
  initExec : String → Except String Unit
  awsAccessKey : Option String
  awsSecretKey : Option String
  awsSessionToken : Option String
  attachReadOnly : Except String Unit
  attachCreate : Except String Unit
  closeResult : Except String Unit
  pathExists : String → Bool

/-- Python truthiness of an optional environment-variable string. -/
def optTruthy : Option String → Bool
  | some s => s != ""
  | none => false

/-- Character-list prefix test used by the substring model. -/
def isPrefixList : List Char → List Char → Bool
  | [], _ => true
  | _ :: _, [] => false
  | p :: ps, c :: cs => p == c && isPrefixList ps cs

/-- Substring test on character lists. -/
def subList (pat : List Char) : List Char → Bool
  | [] => pat.isEmpty
  | c :: cs => isPrefixList pat (c :: cs) || subList pat cs

/-- Model of the Python `pat in s` substring test. -/
def strContains (s pat : String) : Bool :=
  subList pat.data s.data

/-- Model of the Python `s.startswith(pre)` prefix test. -/
def strStartsWith (s pre : String) : Bool :=
  isPrefixList pre.data s.data

/-- Model of the regex search `re.search(r"\.rs\.\d+$", s)`: the string
ends in a literal `.rs.` followed by one or more digits. -/
def isRsId (s : String) : Bool :=
  let rev := s.data.reverse
  let digits := rev.takeWhile Char.isDigit
  let rest := rev.dropWhile Char.isDigit
  (!digits.isEmpty) && rest.take 4 == [Char.ofNat 46, Char.ofNat 115, Char.ofNat 114, Char.ofNat 46]

/-- Embedding of `_is_read_scaling_connection` (database.py:15-34): probe
`__md_duckling_id()`; any exception or a missing/falsy duckling id yields
`false`; otherwise match the replica-suffix pattern. -/
def isReadScalingConnection (probe : Except String (Option String)) : Bool :=
  match probe with
  | .error _ => false
  | .ok none => false
  | .ok (some ducklingId) => if ducklingId == "" then false else isRsId ducklingId

/-- Digit-grouping of a reversed digit list, used for Python `:,` formatting. -/
def commaChunks : List Char → List Char
  | a :: b :: c :: d :: rest => a :: b :: c :: Char.ofNat 44 :: commaChunks (d :: rest)
  | l => l

/-- Model of Python thousands-separator formatting `f"{n:,}"`. -/
def commaFmt (n : Nat) : String :=
  String.mk ((commaChunks (toString n).data.reverse).reverse)

/-- Row-limit warning text from database.py:316-318. -/
def rowLimitWarning (maxRows : Nat) : String :=
  "Results limited to " ++ commaFmt maxRows ++ " rows. Query returned more data."

/-- Character-limit warning text from database.py:331-334. -/
def charLimitWarning (nRows maxChars : Nat) : String :=
  "Results limited to " ++ commaFmt nRows ++ " rows due to " ++
    toString (maxChars / 1000) ++ "KB output size limit."

/-- Timeout message raised in `_execute_with_timeout` (database.py:375-378). -/
def timeoutErrorMessage (timeout : Int) : String :=
  "Query execution timed out after " ++ toString timeout ++
    " seconds. Increase timeout with --query-timeout argument when starting the mcp server."

/-- Read-scaling configuration error raised in `_initialize_connection`
(database.py:194-198). -/
def readScalingMessage : String :=
  "The --read-only flag with MotherDuck requires a read-scaling token. " ++
    "You appear to be using a read/write token. Please use a read-scaling token instead. " ++
    "See: https://motherduck.com/docs/key-tasks/authenticating-and-connecting-to-motherduck/"

/-- The result dict built by `_execute` (database.py:304-337).  `truncated`
and `warning` are optional keys; `rowCount` mirrors `result["rowCount"]`. -/
structure QueryResult where
  success : Bool
  columns : List String
  columnTypes : List String
  rows : List (List String)
  rowCount : Nat
  truncated : Option Bool
  warning : Option String
  deriving DecidableEq, Repr

/-- Serialized length of a JSON string literal (no escape characters). -/
def jsonStrLen (s : String) : Nat := s.length + 2

/-- Serialized length of a JSON array given its elements' lengths. -/
def jsonListLen (elems : List Nat) : Nat :=
  2 + elems.sum + 2 * (elems.length - 1)

/-- Serialized length of one `"key": value` dict item. -/
def jsonKVLen (key : String) (vlen : Nat) : Nat :=
  key.length + 2 + 2 + vlen

/-- Model of `len(json.dumps(result, default=str))` for the result dict of
`_execute`, with the default separators of `json.dumps`. -/
def jsonDumpsLen (r : QueryResult) : Nat :=
  let items : List Nat :=
    [jsonKVLen "success" (if r.success then 4 else 5),
     jsonKVLen "columns" (jsonListLen (r.columns.map jsonStrLen)),
     jsonKVLen "columnTypes" (jsonListLen (r.columnTypes.map jsonStrLen)),
     jsonKVLen "rows" (jsonListLen (r.rows.map (fun row => jsonListLen (row.map jsonStrLen)))),
     jsonKVLen "rowCount" (toString r.rowCount).length]
    ++ (match r.truncated with
        | some b => [jsonKVLen "truncated" (if b then 4 else 5)]
        | none => [])
    ++ (match r.warning with
        | some w => [jsonKVLen "warning" (jsonStrLen w)]
        | none => [])
  2 + items.sum + 2 * (items.length - 1)

/-- One iteration of the character-limit loop body (database.py:325-335):
remove `max(1, len(rows) // 10)` rows from the end, refresh `rows` and
`rowCount`, force `truncated`, replace the warning. -/
def shrinkStep (maxChars : Nat) (res : QueryResult) : QueryResult :=
  let n := res.rows.length
  let removeCount := max 1 (n / 10)
  let rows2 := res.rows.take (n - removeCount)
  { res with
    rows := rows2
    rowCount := rows2.length
    truncated := some true
    warning := some (charLimitWarning rows2.length maxChars) }

/-- Fuel-indexed unfolding of the `while rows and len(json_output) > max_chars`
loop (database.py:324-335).  Each iteration removes at least one row, so fuel
equal to the initial row count always suffices. -/
def shrinkIter : Nat → Nat → QueryResult → QueryResult
  | 0, _, res => res
  | Nat.succ fuel, maxChars, res =>
      if res.rows.length = 0 ∨ jsonDumpsLen res ≤ maxChars then res
      else shrinkIter fuel maxChars (shrinkStep maxChars res)

/-- The complete character-limit truncation pass of `_execute`
(database.py:320-336). -/
def shrinkLoop (maxChars : Nat) (res : QueryResult) : QueryResult :=
  shrinkIter res.rows.length maxChars res

/-- What a query produces at the engine: metadata plus the full row stream,
or an exception raised during execution/fetch. -/
inductive QueryOutcome where
  | ok (columns columnTypes : List String) (allRows : List (List String))
  | raiseInterrupt (msg : String)
  | raiseOther (msg : String) (tyName : String)
  deriving DecidableEq, Repr

/-- The tuple returned by `_execute_direct`. -/
structure DirectResult where
  columns : List String
  columnTypes : List String
  rows : List (List String)
  hasMoreRows : Bool
  deriving DecidableEq, Repr

/-- Row fetch and truncation of `_execute_direct` (database.py:354-363):
fetch `max_rows + 1` rows, detect overflow, drop the extra row. -/
def directResultOf (maxRows : Nat) (cols types : List String)
    (allRows : List (List String)) : DirectResult :=
  let raw := allRows.take (maxRows + 1)
  let hasMore := decide (raw.length > maxRows)
  let rows := if hasMore then raw.take maxRows else raw
  ⟨cols, types, rows, hasMore⟩

/-- Embedding of `_execute_direct` (database.py:344-363). -/
def executeDirect (maxRows : Nat) : QueryOutcome → List Event × Except PyExc DirectResult
  | .ok cols types allRows => ([Event.runQuery], .ok (directResultOf maxRows cols types allRows))
  | .raiseInterrupt m => ([Event.runQuery], .error (.interrupt m))
  | .raiseOther m ty => ([Event.runQuery], .error (.other m ty))

/-- Embedding of `_execute_with_timeout` (database.py:365-380): start the
interrupt timer, run the query, translate `InterruptException` into the
timeout `ValueError`, cancel the timer in the `finally` block. -/
def executeWithTimeout (timeout : Int) (maxRows : Nat) (outcome : QueryOutcome) :
    List Event × Except PyExc DirectResult :=
  let tq := (executeDirect maxRows outcome).1
  let r0 := (executeDirect maxRows outcome).2
  let r1 : Except PyExc DirectResult :=
    match r0 with
    | .error (.interrupt _) => .error (.valueError (timeoutErrorMessage timeout))
    | r => r
  (Event.timerStart :: tq ++ [Event.timerCancel], r1)

/-- Embedding of `_apply_security_settings` (database.py:207-218): the four
`SET` statements of secure mode, recorded as one event, or nothing. -/
def applySecuritySettings (c : DatabaseClient) : List Event :=
  if c.secureMode then [Event.applySecurity] else []

/-- Events of acquiring the connection at the top of `_execute`
(database.py:286-295): an ephemeral connect re-applies the security
settings, a persistent handle is reused silently. -/
def acquireTrace (c : DatabaseClient) : List Event :=
  match c.conn with
  | none => Event.connect c.dbPath c.readOnly :: applySecuritySettings c
  | some _ => []

/-- Events of the `finally` block of `_execute` (database.py:339-342). -/
def releaseTrace (c : DatabaseClient) : List Event :=
  match c.conn with
  | none => [Event.close]
  | some _ => []

/-- The result dict as first built in `_execute` (database.py:304-318),
before the character-limit pass. -/
def buildResult (maxRows : Nat) (d : DirectResult) : QueryResult :=
  { success := true
    columns := d.columns
    columnTypes := d.columnTypes
    rows := d.rows
    rowCount := d.rows.length
    truncated := if d.hasMoreRows then some true else none
    warning := if d.hasMoreRows then some (rowLimitWarning maxRows) else none }

/-- Embedding of `_execute` (database.py:283-342). -/
def execute (c : DatabaseClient) (outcome : QueryOutcome) :
    List Event × Except PyExc QueryResult :=
  let tq := if c.queryTimeout > 0 then (executeWithTimeout c.queryTimeout c.maxRows outcome).1
            else (executeDirect c.maxRows outcome).1
  let dres := if c.queryTimeout > 0 then (executeWithTimeout c.queryTimeout c.maxRows outcome).2
              else (executeDirect c.maxRows outcome).2
  match dres with
  | .error e => (acquireTrace c ++ tq ++ releaseTrace c, .error e)
  | .ok d => (acquireTrace c ++ tq ++ releaseTrace c,
              .ok (shrinkLoop c.maxChars (buildResult c.maxRows d)))

/-- What `query` (database.py:382-395) hands back to its caller: a result
dict, a structured error dict, or a re-raised exception. -/
inductive QueryResponse where
  | result (r : QueryResult)
  | errorObj (error : String) (errorType : String)
  | raised (e : PyExc)
  deriving DecidableEq, Repr

/-- Embedding of `query` (database.py:382-395): `ValueError` is re-raised,
every other exception becomes a structured `success=false` payload. -/
def clientQuery (c : DatabaseClient) (outcome : QueryOutcome) :
    List Event × QueryResponse :=
  ((execute c outcome).1,
   match (execute c outcome).2 with
   | .ok res => .result res
   | .error (.valueError m) => .raised (.valueError m)
   | .error (.interrupt m) => .errorObj m "InterruptException"
   | .error (.other m ty) => .errorObj m ty)

/-- Embedding of `_execute_init_sql` (database.py:220-242): a falsy
`init_sql` is a no-op; otherwise load the statement text (from a file when
the string names one), execute it, and wrap any failure into the fatal
`ValueError`. -/
def executeInitSql (env : Env) (c : DatabaseClient) : List Event × Except PyExc Unit :=
  match c.initSql with
  | none => ([], .ok ())
  | some s =>
      if s == "" then ([], .ok ())
      else
        let content := if env.isFile s then env.fileContent s else s
        match env.initExec content with
        | .ok _ => ([Event.runInitSql content], .ok ())
        | .error e => ([Event.runInitSql content],
                       .error (.valueError ("Init SQL execution failed: " ++ e)))

/-- The shared tail of every handle-returning branch of
`_initialize_connection`: apply the security settings, run the init SQL,
and return the handle only when the init SQL succeeded. -/
def finishConnection (env : Env) (c : DatabaseClient) (pre : List Event) :
    List Event × Except PyExc (Option Unit) :=
  let sec := applySecuritySettings c
  let ti := (executeInitSql env c).1
  match (executeInitSql env c).2 with
  | .ok _ => (pre ++ (sec ++ ti), .ok (some ()))
  | .error e => (pre ++ (sec ++ ti), .error e)

/-- Embedding of the object-storage part of `_initialize_connection`
(database.py:105-172): in-memory connect, httpfs setup, optional secret
creation from the environment, read-only attach with the
create-and-retry fallback for a missing database. -/
def s3Attach (env : Env) (c : DatabaseClient) : List Event × Except PyExc Unit :=
  let t0 := [Event.connect ":memory:" false, Event.installHttpfs, Event.loadHttpfs]
  let tks :=
    if optTruthy env.awsAccessKey && optTruthy env.awsSecretKey &&
        !optTruthy env.awsSessionToken then
      [Event.createSecretKeys]
    else if optTruthy env.awsSessionToken then [Event.createSecretChain]
    else []
  match env.attachReadOnly with
  | .ok _ => (t0 ++ tks ++ [Event.attach c.dbPath true, Event.useS3db], .ok ())
  | .error e =>
      if strContains e "database does not exist" && !c.readOnly then
        match env.attachCreate with
        | .ok _ => (t0 ++ tks ++ [Event.attach c.dbPath true, Event.attach c.dbPath false,
                                  Event.useS3db], .ok ())
        | .error ce => (t0 ++ tks ++ [Event.attach c.dbPath true, Event.attach c.dbPath false],
                        .error (.other ce "Exception"))
      else (t0 ++ tks ++ [Event.attach c.dbPath true], .error (.other e "Exception"))

/-- Embedding of `_initialize_connection` (database.py:70-205).  The value
`.ok none` is the ephemeral sentinel (`self.conn is None`); `.ok (some ())`
is a live handle.  Connecting itself and the `SELECT 1` liveness probe are
modelled as succeeding; every failure path the claims speak about
(read-scaling verification, attach, init SQL) is represented. -/
def initializeConnection (env : Env) (c : DatabaseClient) :
    List Event × Except PyExc (Option Unit) :=
  if c.dbType == "duckdb" && c.dbPath != ":memory:" && c.readOnly then
    if c.ephemeralConnections then
      ([Event.connect c.dbPath true, Event.probeSelectOne, Event.close], .ok none)
    else
      finishConnection env c [Event.connect c.dbPath true, Event.probeSelectOne]
  else if c.dbType == "s3" then
    match s3Attach env c with
    | (t, .error e) => (t, .error e)
    | (t, .ok _) => finishConnection env c t
  else
    let ro := c.dbType == "motherduck" && c.readOnly
    if c.dbType == "motherduck" && c.readOnly then
      if isReadScalingConnection env.ducklingProbe then
        finishConnection env c [Event.connect c.dbPath ro, Event.ducklingProbe]
      else
        ([Event.connect c.dbPath ro, Event.ducklingProbe, Event.close],
         .error (.valueError readScalingMessage))
    else
      finishConnection env c [Event.connect c.dbPath ro]

/-- Backend-kind sniffing of `switch_database` (database.py:446-454). -/
def detectDbType (path : String) : String :=
  if strStartsWith path "md:" || strStartsWith path "motherduck:" then "motherduck"
  else if strStartsWith path "s3://" then "s3"
  else if path == ":memory:" then "memory"
  else "duckdb"

/-- The client state right after `switch_database` has updated its
configuration (database.py:434-454): connection cleared, path, access mode
and re-detected backend kind stored. -/
def switchTarget (c : DatabaseClient) (path : String) (readOnly : Bool) : DatabaseClient :=
  { c with conn := none, dbPath := path, readOnly := readOnly, dbType := detectDbType path }

/-- Close events of `switch_database` (database.py:435-440): the previous
handle is closed when one exists; a raised close error is swallowed. -/
def closeEvents (c : DatabaseClient) : List Event :=
  match c.conn with
  | some _ => [Event.close]
  | none => []

/-- Embedding of `switch_database` (database.py:423-459): close the old
handle ignoring errors, update the stored target, re-detect the backend
kind, and re-run `_initialize_connection`; an exception from it escapes
after the state was already mutated. -/
def switchDatabase (env : Env) (c : DatabaseClient) (path : String) (readOnly : Bool) :
    List Event × DatabaseClient × Except PyExc Unit :=
  match initializeConnection env (switchTarget c path readOnly) with
  | (ti, .ok oc) =>
      (closeEvents c ++ ti, { switchTarget c path readOnly with conn := oc }, .ok ())
  | (ti, .error e) => (closeEvents c ++ ti, switchTarget c path readOnly, .error e)

/-- Embedding of `_is_local_file_path`
(tools/switch_database_connection.py:11-19). -/
def isLocalFilePath (path : String) : Bool :=
  if path == ":memory:" then false
  else if strStartsWith path "md:" || strStartsWith path "motherduck:" then false
  else if strStartsWith path "s3://" then false
  else true

/-- Model of POSIX `os.path.isabs`. -/
def isAbs (path : String) : Bool :=
  strStartsWith path "/"

/-- The relative-path rejection text of `_validate_path`
(tools/switch_database_connection.py:43). -/
def relativePathError (path : String) : String :=
  "Relative paths are not allowed. Please use an absolute path. Got: " ++ path

/-- Embedding of `_validate_path` (tools/switch_database_connection.py:22-45). -/
def validatePath (path : String) : Option String :=
  if !isLocalFilePath path then none
  else if !isAbs path then some (relativePathError path)
  else none

/-- Python `str(e)` of an embedded exception. -/
def pyExcMessage : PyExc → String
  | .valueError m => m
  | .interrupt m => m
  | .other m _ => m

/-- Python `type(e).__name__` of an embedded exception. -/
def pyExcTypeName : PyExc → String
  | .valueError _ => "ValueError"
  | .interrupt _ => "InterruptException"
  | .other _ ty => ty

/-- The JSON payload returned by the `switch_database_connection` tool. -/
structure SwitchResult where
  success : Bool
  message : Option String := none
  error : Option String := none
  errorType : Option String := none
  previousDatabase : Option String := none
  currentDatabase : Option String := none
  readOnly : Option Bool := none
  warning : Option String := none
  deriving DecidableEq, Repr

/-- Embedding of `switch_database_connection`
(tools/switch_database_connection.py:48-130): validate the path, check
file existence and creation permission for local paths, force the
in-memory special case, then delegate to `switch_database` and catch any
exception into a structured error payload. -/
def switchDatabaseConnection (env : Env) (c : DatabaseClient) (path : String)
    (serverReadOnly createIfNotExists : Bool) :
    List Event × SwitchResult × DatabaseClient :=
  match validatePath path with
  | some err => ([], { success := false, error := some err, errorType := some "ValueError" }, c)
  | none =>
    if isLocalFilePath path && !env.pathExists path && !createIfNotExists then
      ([], { success := false
             error := some ("Database file does not exist: " ++ path ++
               ". Set create_if_not_exists=True to create a new database.")
             errorType := some "FileNotFoundError" }, c)
    else if isLocalFilePath path && !env.pathExists path && serverReadOnly then
      ([], { success := false
             error := some ("Cannot create new database file in read-only mode. " ++
               "The server must be started with --read-write to create databases.")
             errorType := some "PermissionError" }, c)
    else
      let effectiveReadOnly := if path == ":memory:" then false else serverReadOnly
      let warn : Option String :=
        if path == ":memory:" && serverReadOnly then
          some "In-memory databases cannot be read-only (DuckDB limitation)"
        else none
      let previousDb := c.dbPath
      match switchDatabase env c path effectiveReadOnly with
      | (t, c2, .ok _) =>
          (t, { success := true
                message := some ("Switched to database: " ++ path)
                previousDatabase := some previousDb
                currentDatabase := some path
                readOnly := some effectiveReadOnly
                warning := warn }, c2)
      | (t, c2, .error e) =>
          (t, { success := false
                error := some (pyExcMessage e)
                errorType := some (pyExcTypeName e) }, c2)

/-- Row count carried by a successful query response. -/
def respRowsLen : QueryResponse → Option Nat
  | .result r => some r.rows.length
  | _ => none

/-- Whether a successful query response serializes to more than `mc`
characters. -/
def respSizeOver (mc : Nat) : QueryResponse → Bool
  | .result r => decide (jsonDumpsLen r > mc)
  | _ => false

/-! Helper lemmas about the substring model. -/

theorem isPrefixList_self (p : List Char) : isPrefixList p p = true := by
  induction p with
  | nil => rfl
  | cons c cs ih => simp [isPrefixList, ih]

theorem subList_refl (p : List Char) : subList p p = true := by
  cases p with
  | nil => rfl
  | cons c cs => simp [subList, isPrefixList_self]

theorem isPrefixList_append (p a b : List Char) (h : isPrefixList p a = true) :
    isPrefixList p (a ++ b) = true := by
  induction p generalizing a with
  | nil => rfl
  | cons c cs ih =>
    cases a with
    | nil => simp [isPrefixList] at h
    | cons x xs =>
      simp only [isPrefixList, Bool.and_eq_true, beq_iff_eq] at h
      simp only [List.cons_append, isPrefixList, Bool.and_eq_true, beq_iff_eq]
      exact ⟨h.1, ih xs h.2⟩

theorem subList_append_right (p a b : List Char) (h : subList p a = true) :
    subList p (a ++ b) = true := by
  induction a with
  | nil =>
    simp only [subList, List.isEmpty_iff] at h
    subst h
    cases b with
    | nil => rfl
    | cons x xs => simp [subList, isPrefixList]
  | cons x xs ih =>
    simp only [subList, Bool.or_eq_true] at h
    rcases h with h | h
    · simp only [List.cons_append, subList, Bool.or_eq_true]
      exact Or.inl (isPrefixList_append p (x :: xs) b h)
    · simp only [List.cons_append, subList, Bool.or_eq_true]
      exact Or.inr (ih h)

theorem subList_append_left (p a b : List Char) (h : subList p b = true) :
    subList p (a ++ b) = true := by
  induction a with
  | nil => simpa using h
  | cons x xs ih => simp only [List.cons_append, subList, Bool.or_eq_true]; exact Or.inr ih

theorem strContains_middle (a m b : String) : strContains (a ++ m ++ b) m = true := by
  unfold strContains
  rw [String.data_append, String.data_append]
  exact subList_append_right _ _ _ (subList_append_left _ _ _ (subList_refl m.data))

theorem strContains_of_suffix (a b : String) (pat : String)
    (h : strContains a pat = true) : strContains (a ++ b) pat = true := by
  unfold strContains at h ⊢
  rw [String.data_append]
  exact subList_append_right _ _ _ h

/-! Helper lemmas about the warning strings. -/

theorem rowLimitWarning_pos (m : Nat) : 0 < (rowLimitWarning m).length := by
  unfold rowLimitWarning
  simp only [String.length_append]
  have h : (("Results limited to " : String)).length = 19 := rfl
  omega

theorem charLimitWarning_pos (n mc : Nat) : 0 < (charLimitWarning n mc).length := by
  unfold charLimitWarning
  simp only [String.length_append]
  have h : (("Results limited to " : String)).length = 19 := rfl
  omega

/-! Helper lemmas about the character-limit shrink loop. -/

theorem shrinkStep_rows (mc : Nat) (res : QueryResult) :
    (shrinkStep mc res).rows =
      res.rows.take (res.rows.length - max 1 (res.rows.length / 10)) := rfl

theorem shrinkStep_rows_length (mc : Nat) (res : QueryResult) :
    (shrinkStep mc res).rows.length =
      res.rows.length - max 1 (res.rows.length / 10) := by
  rw [shrinkStep_rows, List.length_take]
  omega

theorem shrinkIter_rows_le (fuel mc : Nat) (res : QueryResult) :
    (shrinkIter fuel mc res).rows.length ≤ res.rows.length := by
  induction fuel generalizing res with
  | zero => simp [shrinkIter]
  | succ f ih =>
    unfold shrinkIter
    split
    · exact Nat.le_refl _
    · exact Nat.le_trans (ih (shrinkStep mc res)) (by rw [shrinkStep_rows_length]; omega)

theorem shrinkIter_complete (fuel mc : Nat) (res : QueryResult)
    (h : res.rows.length ≤ fuel) :
    jsonDumpsLen (shrinkIter fuel mc res) ≤ mc ∨ (shrinkIter fuel mc res).rows = [] := by
  induction fuel generalizing res with
  | zero =>
    have : res.rows = [] := List.eq_nil_of_length_eq_zero (Nat.le_zero.mp h)
    exact Or.inr this
  | succ f ih =>
    unfold shrinkIter
    split
    · rename_i hcond
      rcases hcond with hz | hle
      · exact Or.inr (List.eq_nil_of_length_eq_zero hz)
      · exact Or.inl hle
    · rename_i hcond
      apply ih
      rw [shrinkStep_rows_length]
      omega

theorem shrinkIter_id_or_marked (fuel mc : Nat) (res : QueryResult) :
    shrinkIter fuel mc res = res ∨
      ((shrinkIter fuel mc res).truncated = some true ∧
        ∃ n, (shrinkIter fuel mc res).warning = some (charLimitWarning n mc)) := by
  induction fuel generalizing res with
  | zero => exact Or.inl rfl
  | succ f ih =>
    unfold shrinkIter
    split
    · exact Or.inl rfl
    · rcases ih (shrinkStep mc res) with heq | hmark
      · rw [heq]
        exact Or.inr ⟨rfl, ⟨(shrinkStep mc res).rows.length, rfl⟩⟩
      · exact Or.inr hmark

theorem shrinkIter_of_le (fuel mc : Nat) (res : QueryResult)
    (h : jsonDumpsLen res ≤ mc) : shrinkIter fuel mc res = res := by
  cases fuel with
  | zero => rfl
  | succ f =>
    unfold shrinkIter
    split
    · rfl
    · rename_i hcond
      exact absurd (Or.inr h) hcond

theorem shrinkLoop_of_le (mc : Nat) (res : QueryResult)
    (h : jsonDumpsLen res ≤ mc) : shrinkLoop mc res = res :=
  shrinkIter_of_le _ _ _ h

theorem shrinkIter_fuel_irrel (f1 f2 mc : Nat) (res : QueryResult)
    (h1 : res.rows.length ≤ f1) (h2 : res.rows.length ≤ f2) :
    shrinkIter f1 mc res = shrinkIter f2 mc res := by
  induction f1 generalizing f2 res with
  | zero =>
    have hz : res.rows = [] := List.eq_nil_of_length_eq_zero (Nat.le_zero.mp h1)
    cases f2 with
    | zero => rfl
    | succ g => simp [shrinkIter, hz]
  | succ f ih =>
    cases f2 with
    | zero =>
      have hz : res.rows = [] := List.eq_nil_of_length_eq_zero (Nat.le_zero.mp h2)
      simp [shrinkIter, hz]
    | succ g =>
      unfold shrinkIter
      split
      · rfl
      · rename_i hcond
        apply ih
        · rw [shrinkStep_rows_length]; omega
        · rw [shrinkStep_rows_length]; omega

theorem shrinkLoop_eq_step (mc : Nat) (res : QueryResult)
    (hne : res.rows.length ≠ 0) (hgt : mc < jsonDumpsLen res) :
    shrinkLoop mc res = shrinkLoop mc (shrinkStep mc res) := by
  unfold shrinkLoop
  have hcond : ¬(res.rows.length = 0 ∨ jsonDumpsLen res ≤ mc) := by
    push_neg
    exact ⟨hne, Nat.lt_iff_add_one_le.mp hgt⟩
  obtain ⟨m, hm⟩ : ∃ m, res.rows.length = m + 1 := ⟨res.rows.length - 1, by omega⟩
  rw [hm, shrinkIter, if_neg hcond]
  apply shrinkIter_fuel_irrel
  · rw [shrinkStep_rows_length]; omega
  · exact Nat.le_refl _

theorem shrinkLoop_rows_le (mc : Nat) (res : QueryResult) :
    (shrinkLoop mc res).rows.length ≤ res.rows.length :=
  shrinkIter_rows_le _ _ _

theorem shrinkLoop_complete (mc : Nat) (res : QueryResult) :
    jsonDumpsLen (shrinkLoop mc res) ≤ mc ∨ (shrinkLoop mc res).rows = [] :=
  shrinkIter_complete _ _ _ (Nat.le_refl _)

theorem shrinkLoop_id_or_marked (mc : Nat) (res : QueryResult) :
    shrinkLoop mc res = res ∨
      ((shrinkLoop mc res).truncated = some true ∧
        ∃ n, (shrinkLoop mc res).warning = some (charLimitWarning n mc)) :=
  shrinkIter_id_or_marked _ _ _

/-! Helper lemmas about query execution. -/

theorem directResultOf_of_long (maxRows : Nat) (cols types : List String)
    (allRows : List (List String)) (h : maxRows < allRows.length) :
    (directResultOf maxRows cols types allRows).rows.length = maxRows ∧
    (directResultOf maxRows cols types allRows).hasMoreRows = true := by
  unfold directResultOf
  refine ⟨?_, ?_⟩
  · simp [List.length_take, h]
    omega
  · simp [h]

theorem execute_ok (c : DatabaseClient) (cols types : List String)
    (allRows : List (List String)) :
    (execute c (QueryOutcome.ok cols types allRows)).2 =
      Except.ok (shrinkLoop c.maxChars
        (buildResult c.maxRows (directResultOf c.maxRows cols types allRows))) := by
  unfold execute
  by_cases ht : c.queryTimeout > 0 <;>
    simp [ht, executeWithTimeout, executeDirect]

/-! Helper lemmas about connection initialization and switching. -/

theorem finishConnection_fst (env : Env) (c : DatabaseClient) (pre : List Event) :
    (finishConnection env c pre).1 =
      pre ++ (applySecuritySettings c ++ (executeInitSql env c).1) := by
  unfold finishConnection
  cases hE : (executeInitSql env c).2 <;> simp [hE]

theorem finishConnection_ok (env : Env) (c : DatabaseClient) (pre : List Event)
    (h : (finishConnection env c pre).2 = Except.ok (some ())) :
    finishConnection env c pre =
      (pre ++ (applySecuritySettings c ++ (executeInitSql env c).1), Except.ok (some ())) ∧
    (executeInitSql env c).2 = Except.ok () := by
  unfold finishConnection at h ⊢
  cases hE : (executeInitSql env c).2 with
  | error e => rw [hE] at h; simp at h
  | ok u => cases u; exact ⟨rfl, rfl⟩

theorem initializeConnection_shape (env : Env) (c : DatabaseClient) :
    (∃ pre, initializeConnection env c = (pre, Except.ok none)) ∨
    (∃ e t, initializeConnection env c = (t, Except.error e)) ∨
    (∃ pre, initializeConnection env c = finishConnection env c pre) := by
  unfold initializeConnection
  split
  · split
    · exact Or.inl ⟨_, rfl⟩
    · exact Or.inr (Or.inr ⟨_, rfl⟩)
  · split
    · split
      · rename_i t e heq
        exact Or.inr (Or.inl ⟨e, t, rfl⟩)
      · exact Or.inr (Or.inr ⟨_, rfl⟩)
    · split
      · split
        · exact Or.inr (Or.inr ⟨_, rfl⟩)
        · exact Or.inr (Or.inl ⟨_, _, rfl⟩)
      · exact Or.inr (Or.inr ⟨_, rfl⟩)

theorem switchDatabase_closeResult_irrel (env : Env) (r : Except String Unit)
    (c : DatabaseClient) (path : String) (ro : Bool) :
    switchDatabase { env with closeResult := r } c path ro = switchDatabase env c path ro := by
  cases env
  rfl

/-! Concrete inputs used by counterexamples and witnesses. -/

/-- A client with `max_rows = 2` and a tiny `max_chars = 1`. -/
def claim1Client : DatabaseClient where
  dbPath := "/data/test.db"
  dbType := "duckdb"
  readOnly := false
  ephemeralConnections := true
  maxRows := 2
  maxChars := 1
  queryTimeout := -1
  initSql := none
  secureMode := false
  conn := some ()

/-- A query whose full result has three rows. -/
def claim1Outcome : QueryOutcome :=
  QueryOutcome.ok ["c"] ["VARCHAR"] [["a"], ["b"], ["c"]]

/-- A client with `max_rows = 2` and a roomy `max_chars = 50000`. -/
def claim1WClient : DatabaseClient where
  dbPath := "/data/test.db"
  dbType := "duckdb"
  readOnly := false
  ephemeralConnections := true
  maxRows := 2
  maxChars := 50000
  queryTimeout := -1
  initSql := none
  secureMode := false
  conn := some ()

/-- A client with `max_chars = 1`, below the size of even an empty result. -/
def claim3Client : DatabaseClient where
  dbPath := "/data/test.db"
  dbType := "duckdb"
  readOnly := false
  ephemeralConnections := true
  maxRows := 10
  maxChars := 1
  queryTimeout := -1
  initSql := none
  secureMode := false
  conn := some ()

/-- A one-row query result stream. -/
def claim3Outcome : QueryOutcome :=
  QueryOutcome.ok ["col"] ["VARCHAR"] [["v"]]

/-- A result dict holding eleven rows, entering the shrink loop. -/
def claim4Res : QueryResult where
  success := true
  columns := ["c"]
  columnTypes := ["VARCHAR"]
  rows := List.replicate 11 ["x"]
  rowCount := 11
  truncated := none
  warning := none

/-- A one-row result dict used to witness the amended shrink-step claim. -/
def claim4WRes : QueryResult where
  success := true
  columns := ["c"]
  columnTypes := ["VARCHAR"]
  rows := [["x"]]
  rowCount := 1
  truncated := none
  warning := none

/-! Claim theorems. -/

/-- C1, counterexample: with `max_rows = 2` and `max_chars = 1`, a query
returning three rows (more than `max_rows`) yields a final result with 0
rows, not exactly `max_rows` rows — the character-limit pass shrinks the
row list below the row limit, so the claimed equality
`rows.length == N` fails. -/
theorem claim1_counterexample :
    claim1Client.maxRows < ([["a"], ["b"], ["c"]] : List (List String)).length ∧
    claim1Outcome = QueryOutcome.ok ["c"] ["VARCHAR"] [["a"], ["b"], ["c"]] ∧
    respRowsLen (clientQuery claim1Client claim1Outcome).2 = some 0 ∧
    some (0 : Nat) ≠ some claim1Client.maxRows := by
  refine ⟨by decide, rfl, by decide, by decide⟩

/-- C1 (amended): for every client and every query whose result stream has
more than `max_rows` rows, the returned result has at most `max_rows`
rows — exactly `max_rows` whenever the serialized result fits in
`max_chars` — with `truncated = true` and a non-empty warning. -/
theorem claim1_amended_row_limit (c : DatabaseClient) (cols types : List String)
    (allRows : List (List String)) (hN : c.maxRows < allRows.length) :
    ∃ r, (clientQuery c (QueryOutcome.ok cols types allRows)).2 = QueryResponse.result r ∧
      r.rows.length ≤ c.maxRows ∧
      r.truncated = some true ∧
      (∃ w, r.warning = some w ∧ 0 < w.length) ∧
      (jsonDumpsLen (buildResult c.maxRows (directResultOf c.maxRows cols types allRows)) ≤
          c.maxChars → r.rows.length = c.maxRows) := by
  obtain ⟨hlen, hmore⟩ := directResultOf_of_long c.maxRows cols types allRows hN
  have hbRows :
      (buildResult c.maxRows (directResultOf c.maxRows cols types allRows)).rows.length =
        c.maxRows := hlen
  have hbTrunc :
      (buildResult c.maxRows (directResultOf c.maxRows cols types allRows)).truncated =
        some true := by
    simp [buildResult, hmore]
  have hbWarn :
      (buildResult c.maxRows (directResultOf c.maxRows cols types allRows)).warning =
        some (rowLimitWarning c.maxRows) := by
    simp [buildResult, hmore]
  refine ⟨shrinkLoop c.maxChars
    (buildResult c.maxRows (directResultOf c.maxRows cols types allRows)), ?_, ?_, ?_, ?_, ?_⟩
  · unfold clientQuery
    rw [execute_ok]
  · exact le_trans (shrinkLoop_rows_le _ _) (le_of_eq hbRows)
  · rcases shrinkLoop_id_or_marked c.maxChars
      (buildResult c.maxRows (directResultOf c.maxRows cols types allRows)) with he | hm
    · rw [he, hbTrunc]
    · exact hm.1
  · rcases shrinkLoop_id_or_marked c.maxChars
      (buildResult c.maxRows (directResultOf c.maxRows cols types allRows)) with he | hm
    · exact ⟨rowLimitWarning c.maxRows, by rw [he, hbWarn], rowLimitWarning_pos _⟩
    · obtain ⟨n, hw⟩ := hm.2
      exact ⟨charLimitWarning n c.maxChars, hw, charLimitWarning_pos _ _⟩
  · intro hfit
    rw [shrinkLoop_of_le _ _ hfit, hbRows]

/-- Witness for the amended C1 theorem at a concrete client and query. -/
theorem claim1_amended_row_limit_witness :
    claim1WClient.maxRows < ([["a"], ["b"], ["c"]] : List (List String)).length ∧
    (∃ r, (clientQuery claim1WClient
        (QueryOutcome.ok ["c"] ["VARCHAR"] [["a"], ["b"], ["c"]])).2 =
          QueryResponse.result r ∧
      r.rows.length ≤ claim1WClient.maxRows ∧
      r.truncated = some true ∧
      (∃ w, r.warning = some w ∧ 0 < w.length) ∧
      (jsonDumpsLen (buildResult claim1WClient.maxRows
          (directResultOf claim1WClient.maxRows ["c"] ["VARCHAR"] [["a"], ["b"], ["c"]])) ≤
            claim1WClient.maxChars → r.rows.length = claim1WClient.maxRows)) :=
  ⟨by decide,
   claim1_amended_row_limit claim1WClient ["c"] ["VARCHAR"] [["a"], ["b"], ["c"]] (by decide)⟩

/-- C3, counterexample: with `max_chars = 1` the shrink loop runs out of
rows while the serialized result, whose fixed keys and column metadata
alone exceed one character, is still over the limit — the final result
serializes to more than `max_chars`, refuting the unconditional bound. -/
theorem claim3_counterexample :
    respSizeOver claim3Client.maxChars (clientQuery claim3Client claim3Outcome).2 = true ∧
    respRowsLen (clientQuery claim3Client claim3Outcome).2 = some 0 := by
  refine ⟨by decide, by decide⟩

/-- C3 (amended): for every client and every successful query, the returned
result either serializes within `max_chars` or has an empty row list (the
loop removed every row and stopped). -/
theorem claim3_amended_char_limit (c : DatabaseClient) (cols types : List String)
    (allRows : List (List String)) :
    ∃ r, (clientQuery c (QueryOutcome.ok cols types allRows)).2 = QueryResponse.result r ∧
      (jsonDumpsLen r ≤ c.maxChars ∨ r.rows = []) := by
  refine ⟨shrinkLoop c.maxChars
    (buildResult c.maxRows (directResultOf c.maxRows cols types allRows)), ?_, ?_⟩
  · unfold clientQuery
    rw [execute_ok]
  · exact shrinkLoop_complete _ _

/-- C4, counterexample: at eleven rows the loop body removes
`max(1, 11 // 10) = 1` row, leaving ten, whereas the claimed
`ceil(11 / 10) = 2` would leave nine. -/
theorem claim4_counterexample :
    claim4Res.rows.length = 11 ∧
    0 < jsonDumpsLen claim4Res ∧
    (shrinkStep 0 claim4Res).rows.length = 10 ∧
    claim4Res.rows.length - (claim4Res.rows.length + 9) / 10 = 9 ∧
    (10 : Nat) ≠ 9 := by
  refine ⟨by decide, by decide, by decide, by decide, by decide⟩

/-- C4 (amended): each iteration of the character-limit loop, taken while
the serialized result exceeds `max_chars` and rows remain, drops exactly
`max(1, len(rows) // 10)` rows from the end, sets `truncated = true`, and
replaces the warning with the character-limit message. -/
theorem claim4_amended_shrink_step (mc : Nat) (res : QueryResult)
    (hne : res.rows.length ≠ 0) (hgt : mc < jsonDumpsLen res) :
    shrinkLoop mc res = shrinkLoop mc (shrinkStep mc res) ∧
    (shrinkStep mc res).rows =
      res.rows.take (res.rows.length - max 1 (res.rows.length / 10)) ∧
    res.rows.length - (shrinkStep mc res).rows.length = max 1 (res.rows.length / 10) ∧
    (shrinkStep mc res).truncated = some true ∧
    (shrinkStep mc res).warning =
      some (charLimitWarning (shrinkStep mc res).rows.length mc) := by
  refine ⟨shrinkLoop_eq_step mc res hne hgt, rfl, ?_, rfl, rfl⟩
  rw [shrinkStep_rows_length]
  omega

/-- Witness for the amended C4 theorem at a concrete one-row result. -/
theorem claim4_amended_shrink_step_witness :
    claim4WRes.rows.length ≠ 0 ∧
    0 < jsonDumpsLen claim4WRes ∧
    (shrinkLoop 0 claim4WRes = shrinkLoop 0 (shrinkStep 0 claim4WRes) ∧
      (shrinkStep 0 claim4WRes).rows =
        claim4WRes.rows.take
          (claim4WRes.rows.length - max 1 (claim4WRes.rows.length / 10)) ∧
      claim4WRes.rows.length - (shrinkStep 0 claim4WRes).rows.length =
        max 1 (claim4WRes.rows.length / 10) ∧
      (shrinkStep 0 claim4WRes).truncated = some true ∧
      (shrinkStep 0 claim4WRes).warning =
        some (charLimitWarning (shrinkStep 0 claim4WRes).rows.length 0)) :=
  ⟨by decide, by decide, claim4_amended_shrink_step 0 claim4WRes (by decide) (by decide)⟩

/-- A client whose query timeout is five seconds. -/
def claim5Client : DatabaseClient where
  dbPath := "/data/test.db"
  dbType := "duckdb"
  readOnly := false
  ephemeralConnections := true
  maxRows := 1024
  maxChars := 50000
  queryTimeout := 5
  initSql := none
  secureMode := false
  conn := some ()

/-- An execution interrupted by the cooperative interrupt. -/
def claim5Outcome : QueryOutcome :=
  QueryOutcome.raiseInterrupt "INTERRUPT Error"

/-- C5: an ordinary engine SQL failure is caught by `query` and returned as
a structured object carrying `success = false` semantics (the error
message and the exception type name), while a `ValueError` — the class
used for timeout and configuration failures — escaping `_execute` is
re-raised to the caller unchanged. -/
theorem claim5_error_handling (c : DatabaseClient) (m ty : String)
    (outcome : QueryOutcome) (msg : String) :
    (clientQuery c (QueryOutcome.raiseOther m ty)).2 = QueryResponse.errorObj m ty ∧
    ((execute c outcome).2 = Except.error (PyExc.valueError msg) →
      (clientQuery c outcome).2 = QueryResponse.raised (PyExc.valueError msg)) := by
  constructor
  · unfold clientQuery execute
    by_cases ht : c.queryTimeout > 0 <;>
      simp [ht, executeWithTimeout, executeDirect]
  · intro h
    unfold clientQuery
    rw [h]

/-- Witness for C5: a structured error return and a re-raised timeout
`ValueError` at a concrete client. -/
theorem claim5_error_handling_witness :
    (clientQuery claim5Client
        (QueryOutcome.raiseOther "Parser Error: syntax error" "ParserException")).2 =
      QueryResponse.errorObj "Parser Error: syntax error" "ParserException" ∧
    (clientQuery claim5Client claim5Outcome).2 =
      QueryResponse.raised (PyExc.valueError (timeoutErrorMessage 5)) :=
  ⟨(claim5_error_handling claim5Client "Parser Error: syntax error" "ParserException"
      claim5Outcome (timeoutErrorMessage 5)).1,
   (claim5_error_handling claim5Client "Parser Error: syntax error" "ParserException"
      claim5Outcome (timeoutErrorMessage 5)).2 (by decide)⟩

/-- C6: with a positive `query_timeout`, execution starts the interrupt
timer before running the query and cancels it afterwards on every path
(the event trace around the query is exactly start, run, cancel); an
`InterruptException` raised during the query is translated into the
timeout `ValueError`, whose message names the configured timeout. -/
theorem claim6_timeout_timer (c : DatabaseClient) (outcome : QueryOutcome)
    (h : (0 : Int) < c.queryTimeout) :
    (execute c outcome).1 =
      acquireTrace c ++ [Event.timerStart, Event.runQuery, Event.timerCancel] ++
        releaseTrace c ∧
    (∀ m, outcome = QueryOutcome.raiseInterrupt m →
      (execute c outcome).2 =
        Except.error (PyExc.valueError (timeoutErrorMessage c.queryTimeout))) ∧
    strContains (timeoutErrorMessage c.queryTimeout) (toString c.queryTimeout) = true := by
  refine ⟨?_, ?_, ?_⟩
  · unfold execute
    rw [if_pos h, if_pos h]
    cases outcome <;> simp [executeWithTimeout, executeDirect]
  · intro m hm
    subst hm
    unfold execute
    rw [if_pos h]
    simp [executeWithTimeout, executeDirect, h]
  · unfold timeoutErrorMessage
    exact strContains_middle _ _ _

/-- Witness for C6 at a concrete five-second-timeout client and an
interrupted execution. -/
theorem claim6_timeout_timer_witness :
    (0 : Int) < claim5Client.queryTimeout ∧
    ((execute claim5Client claim5Outcome).1 =
      acquireTrace claim5Client ++ [Event.timerStart, Event.runQuery, Event.timerCancel] ++
        releaseTrace claim5Client ∧
    (∀ m, claim5Outcome = QueryOutcome.raiseInterrupt m →
      (execute claim5Client claim5Outcome).2 =
        Except.error (PyExc.valueError (timeoutErrorMessage claim5Client.queryTimeout))) ∧
    strContains (timeoutErrorMessage claim5Client.queryTimeout)
      (toString claim5Client.queryTimeout) = true) :=
  ⟨by decide, claim6_timeout_timer claim5Client claim5Outcome (by decide)⟩

/-- A read-only managed-cloud client. -/
def claim2Client : DatabaseClient where
  dbPath := "md:my_db?motherduck_token=tok"
  dbType := "motherduck"
  readOnly := true
  ephemeralConnections := true
  maxRows := 1024
  maxChars := 50000
  queryTimeout := -1
  initSql := none
  secureMode := false
  conn := none

/-- An engine whose duckling-id probe reports a writable primary session. -/
def claim2EnvPrimary : Env where
  ducklingProbe := Except.ok (some "my_db.rw")
  isFile := fun _ => false
  fileContent := fun _ => ""
  initExec := fun _ => Except.ok ()
  awsAccessKey := none
  awsSecretKey := none
  awsSessionToken := none
  attachReadOnly := Except.ok ()
  attachCreate := Except.ok ()
  closeResult := Except.ok ()
  pathExists := fun _ => true

/-- An engine whose duckling-id probe reports a read-scaling replica. -/
def claim2EnvReplica : Env where
  ducklingProbe := Except.ok (some "my_db.rs.3")
  isFile := fun _ => false
  fileContent := fun _ => ""
  initExec := fun _ => Except.ok ()
  awsAccessKey := none
  awsSecretKey := none
  awsSessionToken := none
  attachReadOnly := Except.ok ()
  attachCreate := Except.ok ()
  closeResult := Except.ok ()
  pathExists := fun _ => true

/-- C2: for a managed-cloud client acquired in read-only mode, a session
whose identity probe does not match the replica-suffix pattern is closed
and the acquisition fails with the `ValueError` telling the caller to use
a read-scaling token; a read-scaling session (with the init SQL
succeeding) is accepted and a handle is returned. -/
theorem claim2_read_scaling_gate (c : DatabaseClient) (envF envS : Env)
    (hdb : c.dbType = "motherduck") (hro : c.readOnly = true)
    (hF : isReadScalingConnection envF.ducklingProbe = false)
    (hS : isReadScalingConnection envS.ducklingProbe = true)
    (hInit : (executeInitSql envS c).2 = Except.ok ()) :
    (initializeConnection envF c =
      ([Event.connect c.dbPath true, Event.ducklingProbe, Event.close],
        Except.error (PyExc.valueError readScalingMessage)) ∧
      strContains readScalingMessage "read-scaling token" = true) ∧
    (initializeConnection envS c).2 = Except.ok (some ()) := by
  have h1 : (c.dbType == "duckdb") = false := by rw [hdb]; rfl
  have h2 : (c.dbType == "s3") = false := by rw [hdb]; rfl
  have h3 : (c.dbType == "motherduck") = true := by rw [hdb]; rfl
  refine ⟨⟨?_, by decide⟩, ?_⟩
  · unfold initializeConnection
    simp [h1, h2, h3, hro, hF]
  · unfold initializeConnection
    simp only [h1, h2, h3, hro, Bool.false_and, Bool.and_self, Bool.true_and,
      Bool.false_eq_true, if_false, if_true, hS]
    unfold finishConnection
    cases hE : (executeInitSql envS c).2 with
    | error e => rw [hE] at hInit; exact absurd hInit (by simp)
    | ok u => simp

/-- Witness for C2 at a concrete read-only managed-cloud client, a primary
session and a replica session. -/
theorem claim2_read_scaling_gate_witness :
    claim2Client.dbType = "motherduck" ∧
    claim2Client.readOnly = true ∧
    isReadScalingConnection claim2EnvPrimary.ducklingProbe = false ∧
    isReadScalingConnection claim2EnvReplica.ducklingProbe = true ∧
    ((initializeConnection claim2EnvPrimary claim2Client =
      ([Event.connect claim2Client.dbPath true, Event.ducklingProbe, Event.close],
        Except.error (PyExc.valueError readScalingMessage)) ∧
      strContains readScalingMessage "read-scaling token" = true) ∧
    (initializeConnection claim2EnvReplica claim2Client).2 = Except.ok (some ())) :=
  ⟨rfl, rfl, by decide, by decide,
   claim2_read_scaling_gate claim2Client claim2EnvPrimary claim2EnvReplica rfl rfl
     (by decide) (by decide) rfl⟩

/-- An engine for switch scenarios: every init SQL statement succeeds and
every file exists. -/
def claim7Env : Env where
  ducklingProbe := Except.ok none
  isFile := fun _ => false
  fileContent := fun _ => ""
  initExec := fun _ => Except.ok ()
  awsAccessKey := none
  awsSecretKey := none
  awsSessionToken := none
  attachReadOnly := Except.ok ()
  attachCreate := Except.ok ()
  closeResult := Except.ok ()
  pathExists := fun _ => true

/-- A secure-mode client with startup init SQL and a live handle. -/
def claim7Client : DatabaseClient where
  dbPath := "/data/old.db"
  dbType := "duckdb"
  readOnly := false
  ephemeralConnections := true
  maxRows := 5
  maxChars := 1000
  queryTimeout := -1
  initSql := some "CREATE TABLE t AS SELECT 1"
  secureMode := true
  conn := some ()

/-- A plain client without init SQL used by the amended-C7 witness. -/
def claim7WClient : DatabaseClient where
  dbPath := "/data/old.db"
  dbType := "duckdb"
  readOnly := false
  ephemeralConnections := true
  maxRows := 5
  maxChars := 1000
  queryTimeout := -1
  initSql := none
  secureMode := false
  conn := some ()

/-- C7, counterexample: a successful switch of a secure-mode client with
configured init SQL re-applies the security settings and re-runs the init
SQL — both events appear in the switch trace — refuting the claim that
they are startup-only and not re-applied. -/
theorem claim7_counterexample :
    (switchDatabase claim7Env claim7Client "/data/new.db" false).2.2 = Except.ok () ∧
    Event.applySecurity ∈ (switchDatabase claim7Env claim7Client "/data/new.db" false).1 ∧
    Event.runInitSql "CREATE TABLE t AS SELECT 1" ∈
      (switchDatabase claim7Env claim7Client "/data/new.db" false).1 := by
  refine ⟨by decide, by decide, by decide⟩

/-- C7 (amended): on every successful switch the previous handle is closed
first (close errors ignored: the outcome does not depend on what closing
returns), the stored target is updated with the re-detected backend kind,
and the full acquire sequence — which re-applies the security settings and
re-runs the init SQL — is re-run for the new target, including the
read-scaling verification when the new target is managed-cloud read-only. -/
theorem claim7_amended_switch (env : Env) (c : DatabaseClient) (path : String) (ro : Bool)
    (oc : Option Unit)
    (hOk : (initializeConnection env (switchTarget c path ro)).2 = Except.ok oc) :
    switchDatabase env c path ro =
      (closeEvents c ++ (initializeConnection env (switchTarget c path ro)).1,
       { switchTarget c path ro with conn := oc }, Except.ok ()) ∧
    (∀ r, switchDatabase { env with closeResult := r } c path ro =
      switchDatabase env c path ro) ∧
    (switchTarget c path ro).dbType = detectDbType path ∧
    (detectDbType path = "motherduck" → ro = true →
      Event.ducklingProbe ∈ (initializeConnection env (switchTarget c path ro)).1) := by
  refine ⟨?_, fun r => switchDatabase_closeResult_irrel env r c path ro, rfl, ?_⟩
  · unfold switchDatabase
    rcases hI : initializeConnection env (switchTarget c path ro) with ⟨ti, ri⟩
    rw [hI] at hOk
    have hri : ri = Except.ok oc := hOk
    subst hri
    rfl
  · intro hmd hroeq
    have hdb : (switchTarget c path ro).dbType = "motherduck" := hmd
    have hro2 : (switchTarget c path ro).readOnly = true := hroeq
    have h1 : ((switchTarget c path ro).dbType == "duckdb") = false := by rw [hdb]; rfl
    have h2 : ((switchTarget c path ro).dbType == "s3") = false := by rw [hdb]; rfl
    have h3 : ((switchTarget c path ro).dbType == "motherduck") = true := by rw [hdb]; rfl
    unfold initializeConnection
    simp only [h1, h2, h3, hro2, Bool.false_and, Bool.and_self, Bool.true_and,
      Bool.false_eq_true, if_false, if_true]
    by_cases hp : isReadScalingConnection env.ducklingProbe
    · simp [hp, finishConnection_fst]
    · simp [hp]

/-- Witness for the amended C7 theorem: switching a client with a live
handle to the in-memory target succeeds, closes the old handle, updates
the stored target, and the outcome ignores a failing close. -/
theorem claim7_amended_switch_witness :
    (initializeConnection claim7Env (switchTarget claim7WClient ":memory:" false)).2 =
      Except.ok (some ()) ∧
    switchDatabase claim7Env claim7WClient ":memory:" false =
      (closeEvents claim7WClient ++
        (initializeConnection claim7Env (switchTarget claim7WClient ":memory:" false)).1,
       { switchTarget claim7WClient ":memory:" false with conn := some () }, Except.ok ()) ∧
    switchDatabase { claim7Env with closeResult := Except.error "boom" }
        claim7WClient ":memory:" false =
      switchDatabase claim7Env claim7WClient ":memory:" false ∧
    (switchTarget claim7WClient ":memory:" false).dbType = detectDbType ":memory:" :=
  ⟨by decide,
   (claim7_amended_switch claim7Env claim7WClient ":memory:" false (some ()) (by decide)).1,
   (claim7_amended_switch claim7Env claim7WClient ":memory:" false (some ())
     (by decide)).2.1 (Except.error "boom"),
   (claim7_amended_switch claim7Env claim7WClient ":memory:" false (some ())
     (by decide)).2.2.1⟩

/-- C8: passing a relative local path to the switch tool fails before any
connection attempt — no events are emitted and the client state is
untouched — with a `success = false` payload whose error message mentions
using an absolute path. -/
theorem claim8_relative_path_rejection (env : Env) (c : DatabaseClient) (path : String)
    (sro cine : Bool) (hLocal : isLocalFilePath path = true) (hRel : isAbs path = false) :
    switchDatabaseConnection env c path sro cine =
      ([], { success := false, error := some (relativePathError path),
             errorType := some "ValueError" }, c) ∧
    strContains (relativePathError path) "absolute path" = true := by
  constructor
  · unfold switchDatabaseConnection validatePath
    simp [hLocal, hRel]
  · unfold relativePathError
    exact strContains_of_suffix _ _ _ (by decide)

/-- Witness for C8 at the spec scenario path `relative/path.db`. -/
theorem claim8_relative_path_rejection_witness :
    isLocalFilePath "relative/path.db" = true ∧
    isAbs "relative/path.db" = false ∧
    (switchDatabaseConnection claim7Env claim7Client "relative/path.db" false false =
      ([], { success := false, error := some (relativePathError "relative/path.db"),
             errorType := some "ValueError" }, claim7Client) ∧
    strContains (relativePathError "relative/path.db") "absolute path" = true) :=
  ⟨by decide, by decide,
   claim8_relative_path_rejection claim7Env claim7Client "relative/path.db" false false
     (by decide) (by decide)⟩

/-- An engine for the acquisition-branch claims. -/
def claim9Env : Env where
  ducklingProbe := Except.ok none
  isFile := fun _ => false
  fileContent := fun _ => ""
  initExec := fun _ => Except.ok ()
  awsAccessKey := none
  awsSecretKey := none
  awsSessionToken := none
  attachReadOnly := Except.ok ()
  attachCreate := Except.ok ()
  closeResult := Except.ok ()
  pathExists := fun _ => true

/-- A read-only local-file client in the default ephemeral mode, with
secure mode on and init SQL configured. -/
def claim9Client : DatabaseClient where
  dbPath := "/data/local.db"
  dbType := "duckdb"
  readOnly := true
  ephemeralConnections := true
  maxRows := 1024
  maxChars := 50000
  queryTimeout := -1
  initSql := some "SELECT 42"
  secureMode := true
  conn := none

/-- A writable local-file client used by the amended-C9 witness. -/
def claim9WClient : DatabaseClient where
  dbPath := "/data/work.db"
  dbType := "duckdb"
  readOnly := false
  ephemeralConnections := true
  maxRows := 1024
  maxChars := 50000
  queryTimeout := -1
  initSql := some "CREATE TABLE t AS SELECT 1"
  secureMode := true
  conn := none

/-- C9, counterexample: the local-file read-only ephemeral branch closes
the probe connection and returns the sentinel without applying the
security settings or running the configured init SQL, refuting the claim
that every branch applies both before returning. -/
theorem claim9_counterexample :
    initializeConnection claim9Env claim9Client =
      ([Event.connect "/data/local.db" true, Event.probeSelectOne, Event.close],
        Except.ok none) ∧
    claim9Client.initSql = some "SELECT 42" ∧
    claim9Client.secureMode = true ∧
    Event.applySecurity ∉ (initializeConnection claim9Env claim9Client).1 ∧
    Event.runInitSql "SELECT 42" ∉ (initializeConnection claim9Env claim9Client).1 := by
  refine ⟨by decide, rfl, rfl, by decide, by decide⟩

/-- C9 (amended): every acquisition branch that returns a handle applies
the security settings and then runs the init SQL, in that order, directly
before returning, and the handle is returned only when the init SQL
succeeded; the ephemeral local read-only branch returns the sentinel
without applying either. -/
theorem claim9_amended_init_order (env : Env) (c : DatabaseClient)
    (h : (initializeConnection env c).2 = Except.ok (some ())) :
    (∃ pre, initializeConnection env c =
      (pre ++ (applySecuritySettings c ++ (executeInitSql env c).1),
        Except.ok (some ()))) ∧
    (executeInitSql env c).2 = Except.ok () := by
  rcases initializeConnection_shape env c with ⟨pre, hp⟩ | ⟨e, t, hp⟩ | ⟨pre, hp⟩
  · rw [hp] at h
    simp at h
  · rw [hp] at h
    simp at h
  · rw [hp] at h ⊢
    have hf := finishConnection_ok env c pre h
    exact ⟨⟨pre, hf.1⟩, hf.2⟩

/-- Witness for the amended C9 theorem: a writable local client acquires a
handle with security settings and init SQL applied in order. -/
theorem claim9_amended_init_order_witness :
    (initializeConnection claim9Env claim9WClient).2 = Except.ok (some ()) ∧
    ((∃ pre, initializeConnection claim9Env claim9WClient =
      (pre ++ (applySecuritySettings claim9WClient ++
        (executeInitSql claim9Env claim9WClient).1), Except.ok (some ()))) ∧
    (executeInitSql claim9Env claim9WClient).2 = Except.ok ()) :=
  ⟨by decide, claim9_amended_init_order claim9Env claim9WClient (by decide)⟩

/-- An engine whose init SQL execution fails, for the non-atomicity claim. -/
def claim10Env : Env where
  ducklingProbe := Except.ok none
  isFile := fun _ => false
  fileContent := fun _ => ""
  initExec := fun _ => Except.error "Catalog Error: boom"
  awsAccessKey := none
  awsSecretKey := none
  awsSessionToken := none
  attachReadOnly := Except.ok ()
  attachCreate := Except.ok ()
  closeResult := Except.ok ()
  pathExists := fun _ => true

/-- A client with a live handle and init SQL configured, about to switch. -/
def claim10Client : DatabaseClient where
  dbPath := "/data/old.db"
  dbType := "duckdb"
  readOnly := false
  ephemeralConnections := true
  maxRows := 1024
  maxChars := 50000
  queryTimeout := -1
  initSql := some "CREATE TABLE boom AS SELECT 1"
  secureMode := false
  conn := some ()

/-- The exception the re-acquisition raises in the C10 witness. -/
def claim10Exc : PyExc :=
  PyExc.valueError "Init SQL execution failed: Catalog Error: boom"

/-- C10: when path validation and the existence checks pass but re-acquiring
the new target raises, the tool returns `success = false`, yet the client
has already closed its previous handle (a close event is in the trace and
the stored handle is gone) and already stores the new path, backend kind
and access mode. -/
theorem claim10_nonatomic_failed_switch (env : Env) (c : DatabaseClient) (path : String)
    (sro cine : Bool) (e : PyExc)
    (hval : validatePath path = none)
    (hex : env.pathExists path = true)
    (hfail : (initializeConnection env
        (switchTarget c path (if path == ":memory:" then false else sro))).2 =
      Except.error e) :
    ∃ t, switchDatabaseConnection env c path sro cine =
      (t, { success := false, error := some (pyExcMessage e),
            errorType := some (pyExcTypeName e) },
       switchTarget c path (if path == ":memory:" then false else sro)) ∧
      (c.conn = some () → Event.close ∈ t) := by
  unfold switchDatabaseConnection
  rw [hval]
  have hc1 : (isLocalFilePath path && !env.pathExists path && !cine) = false := by
    rw [hex]; simp
  have hc2 : (isLocalFilePath path && !env.pathExists path && sro) = false := by
    rw [hex]; simp
  simp only [hc1, hc2, Bool.false_eq_true, if_false]
  unfold switchDatabase
  rcases hI : initializeConnection env
      (switchTarget c path (if path == ":memory:" then false else sro)) with ⟨ti, ri⟩
  rw [hI] at hfail
  have hri : ri = Except.error e := hfail
  subst hri
  refine ⟨closeEvents c ++ ti, rfl, ?_⟩
  intro hconn
  unfold closeEvents
  rw [hconn]
  simp

/-- Witness for C10: a failed switch to `/data/new.db` reports failure
while the client already points at the new target with no handle. -/
theorem claim10_nonatomic_failed_switch_witness :
    validatePath "/data/new.db" = none ∧
    claim10Env.pathExists "/data/new.db" = true ∧
    (∃ t, switchDatabaseConnection claim10Env claim10Client "/data/new.db" false false =
      (t, { success := false, error := some (pyExcMessage claim10Exc),
            errorType := some (pyExcTypeName claim10Exc) },
       switchTarget claim10Client "/data/new.db"
         (if "/data/new.db" == ":memory:" then false else false)) ∧
      (claim10Client.conn = some () → Event.close ∈ t)) :=
  ⟨by decide, rfl,
   claim10_nonatomic_failed_switch claim10Env claim10Client "/data/new.db" false false
     claim10Exc (by decide) rfl (by decide)⟩

end MotherDuck
